import Mathlib

/-!
Verification of the spaced-repetition scheduler core of `en_words_bot`.

Shallow embedding of the Python sources:
  - `src/config/settings.py`   (`LearningConfig`)
  - `src/database/models.py`   (ORM rows as Lean structures)
  - `src/database/crud.py`     (CRUD operations as pure state transformers)
  - `src/scheduler/tasks.py`   (`send_task_to_user`)
  - `src/bot/handlers/answers.py` (`handle_text_answer`, `handle_multiple_choice_answer`)

Conventions:
  - Timestamps are rationals, measured in hours (`datetime.utcnow()` is passed
    explicitly as a `now : ℚ` argument; `timedelta(hours=h)` is `+ h`,
    `timedelta(minutes=m)` is `+ m / 60`).
  - The JSON `task_content` column is modelled as the parsed record
    `TaskContent` (the code round-trips it through `json.dumps`/`json.loads`);
    a `.get` of a possibly missing key is an `Option` field, `.get("options", [])`
    is a plain `List` defaulting to `[]`.
  - Each SQLAlchemy `session.commit()` is a durable-state boundary; the answer
    handlers also return the list of committed states, in order.
  - Nondeterministic externals (the OpenRouter generate / check calls) are
    oracle arguments: `GenResult` and `CheckResult`.
-/

namespace EnWordsBot

/-! ### `config/settings.py` — `LearningConfig` -/

def NEW_WORD_PRIORITY : Int := 3
def STRUGGLING_WORD_PRIORITY : Int := 2
def REVIEW_WORD_PRIORITY : Int := 1

/-- `LearningConfig.REVIEW_INTERVALS`: knowledge-percent band → review interval
in hours, in the dict's insertion order. -/
def REVIEW_INTERVALS : List ((Int × Int) × ℚ) :=
  [((0, 20), 1/2), ((21, 50), 4), ((51, 70), 24), ((71, 89), 72), ((90, 100), 168)]

def CORRECT_ANSWER_BOOST : Int := 15
def INCORRECT_ANSWER_PENALTY : Int := 10
def MIN_KNOWLEDGE : Int := 0
def MAX_KNOWLEDGE : Int := 100

/-- `LearningConfig.get_review_interval`: first band containing the score wins;
fallback 168 hours when no band matches. -/
def get_review_interval (knowledgePercent : Int) : ℚ :=
  match REVIEW_INTERVALS.find? (fun b => b.1.1 ≤ knowledgePercent && knowledgePercent ≤ b.1.2) with
  | some b => b.2
  | none => 168

/-! ### `database/models.py` — rows -/

/-- `models.User`. -/
structure User where
  id : Nat
  telegramId : Nat
  isActive : Bool
  intervalMinutes : Int
  doNotDisturbUntil : Option ℚ
  createdAt : ℚ
  updatedAt : ℚ
  deriving DecidableEq, Repr

/-- `models.Word`. -/
structure Word where
  id : Nat
  wordEn : String
  wordRu : String
  createdAt : ℚ
  deriving DecidableEq, Repr

/-- `models.UserWordProgress`. -/
structure Progress where
  id : Nat
  userId : Nat
  wordId : Nat
  knowledgePercent : Int
  lastReviewedAt : Option ℚ
  nextReviewAt : ℚ
  correctAnswersCount : Nat
  totalAnswersCount : Nat
  createdAt : ℚ
  updatedAt : ℚ
  deriving DecidableEq, Repr

/-- The parsed `task_content` JSON payload produced by `AIService.generate_task`
(fields are present or absent depending on the task type and on what the
external model actually returned). -/
structure TaskContent where
  taskType : Option String
  sentenceRu : Option String
  sentenceEn : Option String
  correctAnswerEn : Option String
  correctAnswerRu : Option String
  question : Option String
  options : List String
  correctIndex : Option Int
  deriving DecidableEq, Repr

/-- `models.TaskHistory`. -/
structure TaskHistory where
  id : Nat
  userId : Nat
  wordId : Nat
  taskType : String
  taskContent : TaskContent
  userAnswer : Option String
  isCorrect : Option Bool
  aiFeedback : Option String
  createdAt : ℚ
  deriving DecidableEq, Repr

/-- The database as seen through the four tables. -/
structure DBState where
  users : List User
  words : List Word
  progresses : List Progress
  tasks : List TaskHistory
  deriving DecidableEq, Repr

/-! ### `database/crud.py` -/

def freshUserId (users : List User) : Nat :=
  users.foldr (fun u m => max (u.id + 1) m) 1

def freshProgressId (progresses : List Progress) : Nat :=
  progresses.foldr (fun p m => max (p.id + 1) m) 1

def freshTaskId (tasks : List TaskHistory) : Nat :=
  tasks.foldr (fun t m => max (t.id + 1) m) 1

/-- `crud.get_user_by_telegram_id`. -/
def get_user_by_telegram_id (users : List User) (telegramId : Nat) : Option User :=
  users.find? (fun u => u.telegramId == telegramId)

/-- `crud.create_user` (new users start inactive; `interval_minutes` defaults to 30). -/
def create_user (users : List User) (telegramId : Nat) (now : ℚ) : User × List User :=
  let u : User := { id := freshUserId users, telegramId := telegramId, isActive := false,
                    intervalMinutes := 30, doNotDisturbUntil := none,
                    createdAt := now, updatedAt := now }
  (u, users ++ [u])

/-- `crud.get_or_create_user`; the `Bool` records whether a commit happened
(a new user row was created). -/
def get_or_create_user (users : List User) (telegramId : Nat) (now : ℚ) :
    User × List User × Bool :=
  match get_user_by_telegram_id users telegramId with
  | some u => (u, users, false)
  | none =>
    let (u, users2) := create_user users telegramId now
    (u, users2, true)

/-- `crud.set_do_not_disturb`: until = utcnow + timedelta(minutes=minutes). -/
def set_do_not_disturb (users : List User) (userId : Nat) (minutes : Int) (now : ℚ) :
    List User :=
  users.map (fun u =>
    if u.id == userId then
      { u with doNotDisturbUntil := some (now + (minutes : ℚ) / 60), updatedAt := now }
    else u)

/-- `crud.clear_do_not_disturb`. -/
def clear_do_not_disturb (users : List User) (userId : Nat) (now : ℚ) : List User :=
  users.map (fun u =>
    if u.id == userId then { u with doNotDisturbUntil := none, updatedAt := now } else u)

/-- `crud.create_user_word_progress`: knowledge 0, next review at creation
time, remaining columns at their model defaults. -/
def create_user_word_progress (progresses : List Progress) (userId wordId : Nat) (now : ℚ) :
    Progress × List Progress :=
  let p : Progress := { id := freshProgressId progresses, userId := userId, wordId := wordId,
                        knowledgePercent := 0, lastReviewedAt := none, nextReviewAt := now,
                        correctAnswersCount := 0, totalAnswersCount := 0,
                        createdAt := now, updatedAt := now }
  (p, progresses ++ [p])

/-- `crud.get_user_word_progress`. -/
def get_user_word_progress (progresses : List Progress) (userId wordId : Nat) :
    Option Progress :=
  progresses.find? (fun p => p.userId == userId && p.wordId == wordId)

/-- Sort key of `crud.get_words_for_review`'s ORDER BY clause:
`last_reviewed_at IS NULL` descending (never-reviewed first), then
`knowledge_percent` ascending, then `next_review_at` ascending —
a lexicographic triple. -/
def reviewKey (p : Progress) : Lex (Nat × Lex (Int × ℚ)) :=
  toLex ((if p.lastReviewedAt.isNone then 0 else 1),
         toLex (p.knowledgePercent, p.nextReviewAt))

def reviewLE (a b : Progress) : Prop := reviewKey a ≤ reviewKey b

instance : DecidableRel reviewLE :=
  fun a b => inferInstanceAs (Decidable (reviewKey a ≤ reviewKey b))

instance : IsTotal Progress reviewLE := ⟨fun a b => le_total (reviewKey a) (reviewKey b)⟩

instance : IsTrans Progress reviewLE := ⟨fun _ _ _ => le_trans⟩

/-- The WHERE clause of `crud.get_words_for_review`: rows of this user that
are due (`next_review_at <= now`). -/
def dueForUser (userId : Nat) (now : ℚ) (p : Progress) : Bool :=
  p.userId == userId && decide (p.nextReviewAt ≤ now)

/-- `crud.get_words_for_review`: due rows of the user, sorted by `reviewKey`,
first `limit` rows. -/
def get_words_for_review (progresses : List Progress) (userId : Nat) (now : ℚ)
    (limit : Nat) : List Progress :=
  ((progresses.filter (dueForUser userId now)).insertionSort reviewLE).take limit

/-- The review selector as the scheduler uses it
(`get_words_for_review(session, user_id, limit=1)` followed by
`words_progress[0]` in `tasks.send_task_to_user`). -/
def selectNext (progresses : List Progress) (userId : Nat) (now : ℚ) : Option Progress :=
  (get_words_for_review progresses userId now 1).head?

/-- The in-place mutation performed by `crud.update_word_progress` on the row it
fetched (`if is_correct:` is a Python truthiness test, so `None` takes the
penalty branch). -/
def apply_answer_update (p : Progress) (isCorrect : Option Bool) (now : ℚ) : Progress :=
  let p1 := { p with totalAnswersCount := p.totalAnswersCount + 1 }
  let p2 :=
    if isCorrect = some true then
      { p1 with correctAnswersCount := p1.correctAnswersCount + 1,
                knowledgePercent :=
                  min MAX_KNOWLEDGE (p1.knowledgePercent + CORRECT_ANSWER_BOOST) }
    else
      { p1 with knowledgePercent :=
                  max MIN_KNOWLEDGE (p1.knowledgePercent - INCORRECT_ANSWER_PENALTY) }
  { p2 with lastReviewedAt := some now,
            nextReviewAt := now + get_review_interval p2.knowledgePercent,
            updatedAt := now }

/-- `crud.update_word_progress`: no-op when the row id is absent. -/
def update_word_progress (progresses : List Progress) (progressId : Nat)
    (isCorrect : Option Bool) (now : ℚ) : List Progress :=
  progresses.map (fun p =>
    if p.id == progressId then apply_answer_update p isCorrect now else p)

/-- `crud.create_task_history`: inserts a fresh pending row (answer columns at
their `NULL` defaults). -/
def create_task_history (tasks : List TaskHistory) (userId wordId : Nat)
    (taskType : String) (content : TaskContent) (now : ℚ) :
    TaskHistory × List TaskHistory :=
  let t : TaskHistory := { id := freshTaskId tasks, userId := userId, wordId := wordId,
                           taskType := taskType, taskContent := content,
                           userAnswer := none, isCorrect := none, aiFeedback := none,
                           createdAt := now }
  (t, tasks ++ [t])

/-- `crud.update_task_history_answer` (an UPDATE ... WHERE id = taskId; the
handler can pass `None` for `is_correct` / `ai_feedback`, the columns are
nullable). -/
def update_task_history_answer (tasks : List TaskHistory) (taskId : Nat)
    (userAnswer : String) (isCorrect : Option Bool) (aiFeedback : Option String) :
    List TaskHistory :=
  tasks.map (fun t =>
    if t.id == taskId then
      { t with userAnswer := some userAnswer, isCorrect := isCorrect,
               aiFeedback := aiFeedback }
    else t)

/-- Sort relation of `crud.get_last_pending_task`: `created_at` descending. -/
def laterFirst (a b : TaskHistory) : Prop := b.createdAt ≤ a.createdAt

instance : DecidableRel laterFirst :=
  fun a b => inferInstanceAs (Decidable (b.createdAt ≤ a.createdAt))

instance : IsTotal TaskHistory laterFirst := ⟨fun a b => le_total b.createdAt a.createdAt⟩

instance : IsTrans TaskHistory laterFirst :=
  ⟨fun _ _ _ h1 h2 => le_trans h2 h1⟩

/-- `crud.get_last_pending_task`: latest task of the user with `is_correct`
still NULL. -/
def get_last_pending_task (tasks : List TaskHistory) (userId : Nat) : Option TaskHistory :=
  (((tasks.filter (fun t => t.userId == userId && t.isCorrect == none)).insertionSort
    laterFirst).take 1).head?

/-! ### `scheduler/tasks.py` — `send_task_to_user` -/

/-- Oracle for `ai_service.generate_task` (the random `task_type` choice and
the external model's reply, or a raised exception). -/
inductive GenResult where
  | ok (taskType : String) (content : TaskContent)
  | fail
  deriving DecidableEq, Repr

/-- Observable collaborator calls a tick / answer handler performs. -/
inductive BotEffect where
  /-- the "all words reviewed" message when nothing is due -/
  | allCaughtUpMsg
  /-- `_send_task_message` delivered the question for this task id -/
  | taskQuestionMsg (taskId : Nat)
  /-- the generation-failure fallback message -/
  | generationErrorMsg
  /-- the tick raised out of `send_task_to_user` (no word row to refresh) -/
  | tickException
  /-- "no active task" reply of the text handler -/
  | noActiveTaskMsg
  /-- "this task expects a button press" reply of the text handler -/
  | wrongAnswerKindMsg
  /-- graded reply with verdict and refreshed knowledge percent -/
  | answerFeedbackMsg (isCorrect : Option Bool) (knowledgePercent : Int)
  /-- the generic "error while checking your answer" reply -/
  | checkErrorMsg
  deriving DecidableEq, Repr

/-- `tasks._send_task_message`: dispatches on the payload's `task_type`; an
unknown type sends nothing. -/
def send_task_message_effects (content : TaskContent) (taskId : Nat) : List BotEffect :=
  match content.taskType with
  | some t =>
    if t == "translation_to_en" || t == "translation_to_ru" then
      [BotEffect.taskQuestionMsg taskId]
    else if t == "multiple_choice_en_to_ru" || t == "multiple_choice_ru_to_en" then
      [BotEffect.taskQuestionMsg taskId]
    else []
  | none => []

/-- Body of `tasks.send_task_to_user` after the active and do-not-disturb
checks have passed. -/
def send_task_eligible (gen : GenResult) (now : ℚ) (st : DBState)
    (userId _telegramId : Nat) : DBState × List BotEffect :=
  match get_words_for_review st.progresses userId now 1 with
  | [] => (st, [BotEffect.allCaughtUpMsg])
  | progress :: _ =>
    match st.words.find? (fun w => w.id == progress.wordId) with
    | none => (st, [BotEffect.tickException])
    | some word =>
      match gen with
      | GenResult.fail => (st, [BotEffect.generationErrorMsg])
      | GenResult.ok taskType content =>
        let (task, tasks2) := create_task_history st.tasks userId word.id taskType content now
        ({ st with tasks := tasks2 }, send_task_message_effects content task.id)

/-- `tasks.send_task_to_user`: one scheduler tick for one learner.
Checks, in order: user exists and is active; do-not-disturb window; then the
eligible body. No check of any kind against already-pending tasks is made. -/
def send_task_to_user (gen : GenResult) (now : ℚ) (st : DBState)
    (userId telegramId : Nat) : DBState × List BotEffect :=
  match get_user_by_telegram_id st.users telegramId with
  | none => (st, [])
  | some user =>
    if !user.isActive then (st, [])
    else
      match user.doNotDisturbUntil with
      | some untilT =>
        if now < untilT then (st, [])
        else send_task_eligible gen now st userId telegramId
      | none => send_task_eligible gen now st userId telegramId

/-- The tasks of a learner whose outcome is still unset. -/
def pendingTasksFor (st : DBState) (userId : Nat) : List TaskHistory :=
  st.tasks.filter (fun t => t.userId == userId && t.isCorrect == none)

/-! ### `bot/handlers/answers.py` -/

/-- The external model's reply to `ai_service.check_answer`, as the handler
sees it: `is_correct` / `feedback` read with `.get`, so either can be absent. -/
structure CheckVerdict where
  isCorrect : Option Bool
  feedback : Option String
  deriving DecidableEq, Repr

/-- Oracle for `ai_service.check_answer`: the call either raises (API error or
unparseable JSON) or returns a parsed dict. -/
inductive CheckResult where
  | raises
  | ok (verdict : CheckVerdict)
  deriving DecidableEq, Repr

/-- Result of running `handle_text_answer`: final database state, messages
sent, and the sequence of states committed along the way (one entry per
`session.commit()` that executed). -/
structure TextAnswerOutcome where
  state : DBState
  effects : List BotEffect
  commits : List DBState
  deriving DecidableEq, Repr

/-- `answers.handle_text_answer`. The `try` block spans the classifier call,
both database updates and the final `session.refresh(progress)`; when
`get_user_word_progress` finds no row, the update is skipped and
`session.refresh(None)` raises, which the `except` turns into the generic
error reply — after the answer update was already committed. -/
def handle_text_answer (check : CheckResult) (now : ℚ) (st : DBState)
    (telegramId : Nat) (messageText : String) : TextAnswerOutcome :=
  let (user, users2, created) := get_or_create_user st.users telegramId now
  let st0 := { st with users := users2 }
  let commits0 := if created then [st0] else []
  match get_last_pending_task st0.tasks user.id with
  | none => ⟨st0, [BotEffect.noActiveTaskMsg], commits0⟩
  | some task =>
    let content := task.taskContent
    if content.taskType != some "translation_to_en" &&
       content.taskType != some "translation_to_ru" then
      ⟨st0, [BotEffect.wrongAnswerKindMsg], commits0⟩
    else
      match check with
      | CheckResult.raises => ⟨st0, [BotEffect.checkErrorMsg], commits0⟩
      | CheckResult.ok v =>
        let st1 := { st0 with
          tasks := update_task_history_answer st0.tasks task.id messageText
                     v.isCorrect v.feedback }
        match get_user_word_progress st1.progresses user.id task.wordId with
        | some progress =>
          let st2 := { st1 with
            progresses := update_word_progress st1.progresses progress.id v.isCorrect now }
          let refreshed :=
            match get_user_word_progress st2.progresses user.id task.wordId with
            | some p2 => p2.knowledgePercent
            | none => 0
          ⟨st2, [BotEffect.answerFeedbackMsg v.isCorrect refreshed],
            commits0 ++ [st1, st2]⟩
        | none =>
          ⟨st1, [BotEffect.checkErrorMsg], commits0 ++ [st1]⟩

/-- Python list indexing: non-negative indices from the front, negative
indices from the back, `IndexError` (here `none`) outside `[-len, len)`. -/
def pyGet {α : Type} (l : List α) (i : Int) : Option α :=
  if 0 ≤ i then l.get? i.toNat
  else if 0 ≤ (l.length : Int) + i then l.get? ((l.length : Int) + i).toNat
  else none

/-- How `handle_multiple_choice_answer` ends. -/
inductive MCResult where
  /-- the "task not found" alert -/
  | notFoundAlert
  /-- the "you already answered this task" alert -/
  | alreadyAnsweredAlert
  /-- an exception escaped the handler (it has no try/except) -/
  | crashed
  /-- graded: verdict and refreshed knowledge percent shown to the user -/
  | answered (isCorrect : Bool) (knowledgePercent : Int)
  deriving DecidableEq, Repr

/-- Result of running `handle_multiple_choice_answer`: final state, outcome,
and the states committed along the way. -/
structure MCOutcome where
  state : DBState
  result : MCResult
  commits : List DBState
  deriving DecidableEq, Repr

/-- `answers.handle_multiple_choice_answer`, after parsing
`answer_{task_id}_{option_index}` from the callback data.
`options[selected_index]` and `options[correct_index]` are raw Python
indexing with no bounds or presence check (`correct_index` of `None` is a
`TypeError`); such an exception escapes before any update runs. After a
successful grade, `session.refresh(progress)` with no progress row raises
after both commits. -/
def handle_multiple_choice_answer (now : ℚ) (st : DBState) (telegramId : Nat)
    (taskId : Nat) (selectedIndex : Int) : MCOutcome :=
  let (user, users2, created) := get_or_create_user st.users telegramId now
  let st0 := { st with users := users2 }
  let commits0 := if created then [st0] else []
  match st0.tasks.find? (fun t => t.id == taskId) with
  | none => ⟨st0, MCResult.notFoundAlert, commits0⟩
  | some task =>
    if task.isCorrect != none then ⟨st0, MCResult.alreadyAnsweredAlert, commits0⟩
    else
      let options := task.taskContent.options
      let isCorrect :=
        match task.taskContent.correctIndex with
        | some c => selectedIndex == c
        | none => false
      let lookups :=
        (pyGet options selectedIndex,
         match task.taskContent.correctIndex with
         | some c => pyGet options c
         | none => none)
      match lookups with
      | (some userAnswer, some correctAnswer) =>
        let feedback :=
          if isCorrect then "Correct! ✅"
          else "Wrong. The correct answer is: " ++ correctAnswer
        let st1 := { st0 with
          tasks := update_task_history_answer st0.tasks task.id userAnswer
                     (some isCorrect) (some feedback) }
        match get_user_word_progress st1.progresses user.id task.wordId with
        | some progress =>
          let st2 := { st1 with
            progresses := update_word_progress st1.progresses progress.id
                            (some isCorrect) now }
          let refreshed :=
            match get_user_word_progress st2.progresses user.id task.wordId with
            | some p2 => p2.knowledgePercent
            | none => 0
          ⟨st2, MCResult.answered isCorrect refreshed, commits0 ++ [st1, st2]⟩
        | none => ⟨st1, MCResult.crashed, commits0 ++ [st1]⟩
      | _ => ⟨st0, MCResult.crashed, commits0⟩

/-! ### Helper lemmas -/

/-- Closed form of `get_review_interval` by score band. -/
theorem get_review_interval_eq (k : Int) :
    get_review_interval k =
      if 0 ≤ k ∧ k ≤ 20 then 1/2
      else if 21 ≤ k ∧ k ≤ 50 then 4
      else if 51 ≤ k ∧ k ≤ 70 then 24
      else if 71 ≤ k ∧ k ≤ 89 then 72
      else 168 := by
  unfold get_review_interval REVIEW_INTERVALS
  split_ifs with h1 h2 h3 h4
  · rw [List.find?_cons_of_pos] <;> try rfl
    simp only [Bool.and_eq_true, decide_eq_true_eq]
    omega
  · rw [List.find?_cons_of_neg, List.find?_cons_of_pos] <;> try rfl
    all_goals simp only [Bool.and_eq_true, decide_eq_true_eq, not_and]
    all_goals omega
  · rw [List.find?_cons_of_neg, List.find?_cons_of_neg, List.find?_cons_of_pos] <;> try rfl
    all_goals simp only [Bool.and_eq_true, decide_eq_true_eq, not_and]
    all_goals omega
  · rw [List.find?_cons_of_neg, List.find?_cons_of_neg, List.find?_cons_of_neg,
        List.find?_cons_of_pos] <;> try rfl
    all_goals simp only [Bool.and_eq_true, decide_eq_true_eq, not_and]
    all_goals omega
  · by_cases h5 : 90 ≤ k ∧ k ≤ 100
    · rw [List.find?_cons_of_neg, List.find?_cons_of_neg, List.find?_cons_of_neg,
          List.find?_cons_of_neg, List.find?_cons_of_pos] <;> try rfl
      all_goals simp only [Bool.and_eq_true, decide_eq_true_eq, not_and]
      all_goals omega
    · rw [List.find?_cons_of_neg, List.find?_cons_of_neg, List.find?_cons_of_neg,
          List.find?_cons_of_neg, List.find?_cons_of_neg] <;> try rfl
      all_goals simp only [Bool.and_eq_true, decide_eq_true_eq, not_and]
      all_goals omega

/-! ### C8 -/

/-- C8: `get_review_interval` is monotonically non-decreasing on scores in
[0,100]; the band table maps [0,20] to 1/2 hour (30 minutes), [21,50] to 4
hours, [51,70] to 24 hours, [71,89] to 72 hours and [90,100] to 168 hours;
every score outside [0,100] falls back to the longest interval, 168 hours. -/
theorem C8_interval_table_monotone :
    (∀ s1 s2 : Int, 0 ≤ s1 → s1 ≤ s2 → s2 ≤ 100 →
      get_review_interval s1 ≤ get_review_interval s2) ∧
    (∀ s : Int, 0 ≤ s → s ≤ 20 → get_review_interval s = 1/2) ∧
    (∀ s : Int, 21 ≤ s → s ≤ 50 → get_review_interval s = 4) ∧
    (∀ s : Int, 51 ≤ s → s ≤ 70 → get_review_interval s = 24) ∧
    (∀ s : Int, 71 ≤ s → s ≤ 89 → get_review_interval s = 72) ∧
    (∀ s : Int, 90 ≤ s → s ≤ 100 → get_review_interval s = 168) ∧
    (∀ s : Int, s < 0 ∨ 100 < s → get_review_interval s = 168) := by
  refine ⟨?_, ?_, ?_, ?_, ?_, ?_, ?_⟩ <;> intro s1
  · intro s2 h0 h12 h2
    rw [get_review_interval_eq, get_review_interval_eq]
    split_ifs <;> first | omega | (exfalso; omega) | norm_num
  all_goals
    intros; rw [get_review_interval_eq];
      split_ifs <;> first | omega | (exfalso; omega) | norm_num

/-- Witness for C8 at concrete scores. -/
theorem C8_witness :
    ((0:Int) ≤ 10 ∧ (10:Int) ≤ 95 ∧ (95:Int) ≤ 100 ∧
      get_review_interval 10 ≤ get_review_interval 95) ∧
    get_review_interval 10 = 1/2 ∧ get_review_interval 35 = 4 ∧
    get_review_interval 60 = 24 ∧ get_review_interval 80 = 72 ∧
    get_review_interval 95 = 168 ∧ get_review_interval (-3) = 168 :=
  ⟨⟨by norm_num, by norm_num, by norm_num,
      C8_interval_table_monotone.1 10 95 (by norm_num) (by norm_num) (by norm_num)⟩,
    C8_interval_table_monotone.2.1 10 (by norm_num) (by norm_num),
    C8_interval_table_monotone.2.2.1 35 (by norm_num) (by norm_num),
    C8_interval_table_monotone.2.2.2.1 60 (by norm_num) (by norm_num),
    C8_interval_table_monotone.2.2.2.2.1 80 (by norm_num) (by norm_num),
    C8_interval_table_monotone.2.2.2.2.2.1 95 (by norm_num) (by norm_num),
    C8_interval_table_monotone.2.2.2.2.2.2 (-3) (Or.inl (by norm_num))⟩

theorem head_of_take_one {α : Type} (l : List α) : (l.take 1).head? = l.head? := by
  cases l <;> rfl

/-- The head of the selector's sorted list relates to every list element. -/
theorem insertionSort_head_min {l : List Progress} {p : Progress} {rest : List Progress}
    (h : List.insertionSort reviewLE l = p :: rest) :
    ∀ q ∈ l, reviewLE p q := by
  intro q hq
  have hperm : (List.insertionSort reviewLE l).Perm l := List.perm_insertionSort reviewLE l
  have hq2 : q ∈ List.insertionSort reviewLE l := hperm.mem_iff.mpr hq
  rw [h] at hq2
  rcases List.mem_cons.mp hq2 with rfl | hq3
  · exact le_refl (reviewKey q)
  · have hs := List.sorted_insertionSort reviewLE l
    rw [h] at hs
    exact List.rel_of_sorted_cons hs q hq3

/-- `reviewLE` spelled out: never-reviewed rows strictly precede reviewed
ones; ties break on lower knowledge, then on earlier `next_review_at`. -/
theorem reviewLE_iff (p q : Progress) :
    reviewLE p q ↔
      ((p.lastReviewedAt = none ∧ q.lastReviewedAt ≠ none) ∨
       ((p.lastReviewedAt = none ↔ q.lastReviewedAt = none) ∧
        (p.knowledgePercent < q.knowledgePercent ∨
         (p.knowledgePercent = q.knowledgePercent ∧ p.nextReviewAt ≤ q.nextReviewAt)))) := by
  unfold reviewLE reviewKey
  rw [Prod.Lex.le_iff, Prod.Lex.le_iff]
  cases hp : p.lastReviewedAt <;> cases hq : q.lastReviewedAt <;>
    simp [Option.isNone] <;> omega

/-! ### C2 -/

/-- C2: the selector never returns a row that is not due or not the learner's;
when it returns a row, that row beats every due row of the learner in the
strict lexicographic priority (never-reviewed first, then lower knowledge,
then earlier `next_review_at`); it returns none exactly when no row of the
learner is due. -/
theorem C2_selectNext_spec (progresses : List Progress) (userId : Nat) (now : ℚ) :
    (selectNext progresses userId now = none ↔
      ∀ q ∈ progresses, q.userId = userId → ¬ q.nextReviewAt ≤ now) ∧
    (∀ p, selectNext progresses userId now = some p →
      p ∈ progresses ∧ p.userId = userId ∧ p.nextReviewAt ≤ now ∧
      ∀ q ∈ progresses, q.userId = userId → q.nextReviewAt ≤ now →
        ((p.lastReviewedAt = none ∧ q.lastReviewedAt ≠ none) ∨
         ((p.lastReviewedAt = none ↔ q.lastReviewedAt = none) ∧
          (p.knowledgePercent < q.knowledgePercent ∨
           (p.knowledgePercent = q.knowledgePercent ∧
             p.nextReviewAt ≤ q.nextReviewAt))))) := by
  have hsel : selectNext progresses userId now
      = (List.insertionSort reviewLE (progresses.filter (dueForUser userId now))).head? := by
    unfold selectNext get_words_for_review
    exact head_of_take_one _
  have hfilter : ∀ q : Progress, q ∈ progresses.filter (dueForUser userId now) ↔
      (q ∈ progresses ∧ q.userId = userId ∧ q.nextReviewAt ≤ now) := by
    intro q
    simp [List.mem_filter, dueForUser, and_assoc]
  constructor
  · rw [hsel]
    constructor
    · intro hnone q hq hqu hqd
      cases hsort : List.insertionSort reviewLE (progresses.filter (dueForUser userId now)) with
      | nil =>
        have hperm := List.perm_insertionSort reviewLE (progresses.filter (dueForUser userId now))
        rw [hsort] at hperm
        have : q ∈ progresses.filter (dueForUser userId now) :=
          (hfilter q).mpr ⟨hq, hqu, hqd⟩
        rw [← hperm.mem_iff] at this
        exact absurd this (List.not_mem_nil q)
      | cons a rest => rw [hsort] at hnone; exact absurd hnone (by simp)
    · intro hall
      cases hsort : List.insertionSort reviewLE (progresses.filter (dueForUser userId now)) with
      | nil => rfl
      | cons a rest =>
        exfalso
        have hperm := List.perm_insertionSort reviewLE (progresses.filter (dueForUser userId now))
        rw [hsort] at hperm
        have ha : a ∈ progresses.filter (dueForUser userId now) :=
          hperm.mem_iff.mp (List.mem_cons_self a rest)
        obtain ⟨haq, hau, had⟩ := (hfilter a).mp ha
        exact hall a haq hau had
  · intro p hp
    rw [hsel] at hp
    cases hsort : List.insertionSort reviewLE (progresses.filter (dueForUser userId now)) with
    | nil => rw [hsort] at hp; exact absurd hp (by simp)
    | cons a rest =>
      rw [hsort] at hp
      have hpa : a = p := by simpa using hp
      subst hpa
      have hperm := List.perm_insertionSort reviewLE (progresses.filter (dueForUser userId now))
      rw [hsort] at hperm
      have hmem : a ∈ progresses.filter (dueForUser userId now) :=
        hperm.mem_iff.mp (List.mem_cons_self a rest)
      obtain ⟨hq, hqu, hqd⟩ := (hfilter a).mp hmem
      refine ⟨hq, hqu, hqd, ?_⟩
      intro q hqmem hquser hqdue
      have : reviewLE a q :=
        insertionSort_head_min hsort q ((hfilter q).mpr ⟨hqmem, hquser, hqdue⟩)
      exact (reviewLE_iff a q).mp this

/-! ### Concrete example rows shared by the witnesses and counterexamples -/

/-- An already-reviewed, struggling, due progress row. -/
def pReviewed : Progress :=
  { id := 1, userId := 1, wordId := 1, knowledgePercent := 10,
    lastReviewedAt := some 1, nextReviewAt := 2, correctAnswersCount := 1,
    totalAnswersCount := 3, createdAt := 0, updatedAt := 1 }

/-- A never-reviewed due progress row of the same learner. -/
def pFresh : Progress :=
  { id := 2, userId := 1, wordId := 2, knowledgePercent := 0,
    lastReviewedAt := none, nextReviewAt := 3, correctAnswersCount := 0,
    totalAnswersCount := 0, createdAt := 0, updatedAt := 0 }

/-- Witness for C2: with a reviewed low-score row and a never-reviewed row
both due, the selector returns the never-reviewed one, and it is due. -/
theorem C2_witness :
    pFresh.userId = 1 ∧ pFresh.nextReviewAt ≤ 100 ∧
    (pFresh.lastReviewedAt = none ∧ pReviewed.lastReviewedAt ≠ none) ∨
      ((pFresh.lastReviewedAt = none ↔ pReviewed.lastReviewedAt = none) ∧
       (pFresh.knowledgePercent < pReviewed.knowledgePercent ∨
        (pFresh.knowledgePercent = pReviewed.knowledgePercent ∧
          pFresh.nextReviewAt ≤ pReviewed.nextReviewAt))) :=
  ((C2_selectNext_spec [pReviewed, pFresh] 1 100).2 pFresh (by decide)).2.2.2
    pReviewed (by decide) (by decide) (by decide) |>.elim
    (fun h => Or.inl ⟨by decide, by decide, h.1, h.2⟩)
    (fun h => Or.inr h)

/-! ### C3 -/

/-- C3: for a progress row with score in [0,100] and either outcome, the
update applied by `crud.update_word_progress` increments `total_answers_count`
by one, increments `correct_answers_count` exactly on a correct outcome, sets
the score to the clamp of score+15 (correct) or score-10 (incorrect) into
[0,100], and sets `next_review_at` to now plus the review interval of the new
score. -/
theorem C3_apply_answer_update_spec (p : Progress) (isCorrect : Bool) (now : ℚ)
    (h0 : 0 ≤ p.knowledgePercent) (h1 : p.knowledgePercent ≤ 100) :
    (apply_answer_update p (some isCorrect) now).totalAnswersCount
        = p.totalAnswersCount + 1 ∧
    (apply_answer_update p (some isCorrect) now).correctAnswersCount
        = p.correctAnswersCount + (if isCorrect then 1 else 0) ∧
    (apply_answer_update p (some isCorrect) now).knowledgePercent
        = max 0 (min 100 (p.knowledgePercent + (if isCorrect then 15 else -10))) ∧
    0 ≤ (apply_answer_update p (some isCorrect) now).knowledgePercent ∧
    (apply_answer_update p (some isCorrect) now).knowledgePercent ≤ 100 ∧
    (apply_answer_update p (some isCorrect) now).nextReviewAt
        = now + get_review_interval
            ((apply_answer_update p (some isCorrect) now).knowledgePercent) ∧
    (apply_answer_update p (some isCorrect) now).lastReviewedAt = some now := by
  cases isCorrect <;>
    (refine ⟨?_, ?_, ?_, ?_, ?_, ?_, ?_⟩ <;>
      simp only [apply_answer_update, MAX_KNOWLEDGE, MIN_KNOWLEDGE, CORRECT_ANSWER_BOOST,
        INCORRECT_ANSWER_PENALTY] <;>
      first
        | rfl
        | (simp; done)
        | (simp; simp only [sup_eq_max, inf_eq_min]; omega)
        | (simp; omega)
        | omega)

/-- Witness for C3 at a concrete progress row and outcome. -/
theorem C3_witness :
    (0:Int) ≤ 50 ∧ (50:Int) ≤ 100 ∧
    (apply_answer_update
        { id := 1, userId := 1, wordId := 1, knowledgePercent := 50,
          lastReviewedAt := some 0, nextReviewAt := 0, correctAnswersCount := 2,
          totalAnswersCount := 3, createdAt := 0, updatedAt := 0 }
        (some true) 7).knowledgePercent
      = max 0 (min 100 (50 + (if true then 15 else -10))) :=
  ⟨by norm_num, by norm_num,
    (C3_apply_answer_update_spec
      { id := 1, userId := 1, wordId := 1, knowledgePercent := 50,
        lastReviewedAt := some 0, nextReviewAt := 0, correctAnswersCount := 2,
        totalAnswersCount := 3, createdAt := 0, updatedAt := 0 }
      true 7 (by norm_num) (by norm_num)).2.2.1⟩

/-! ### C9 -/

/-- C9: a freshly created progress row has score 0, no last-reviewed
timestamp, zero counters, and `next_review_at` equal to its creation time; it
is stored, and at any tick time `t ≥ now` it satisfies the due filter of
`get_words_for_review`, so it is immediately eligible for selection. -/
theorem C9_create_progress_fresh (progresses : List Progress) (userId wordId : Nat)
    (now t : ℚ) (ht : now ≤ t) :
    ((create_user_word_progress progresses userId wordId now).1.knowledgePercent = 0) ∧
    ((create_user_word_progress progresses userId wordId now).1.lastReviewedAt = none) ∧
    ((create_user_word_progress progresses userId wordId now).1.correctAnswersCount = 0) ∧
    ((create_user_word_progress progresses userId wordId now).1.totalAnswersCount = 0) ∧
    ((create_user_word_progress progresses userId wordId now).1.nextReviewAt = now) ∧
    ((create_user_word_progress progresses userId wordId now).1
        ∈ (create_user_word_progress progresses userId wordId now).2) ∧
    dueForUser userId t (create_user_word_progress progresses userId wordId now).1 = true := by
  refine ⟨rfl, rfl, rfl, rfl, rfl, ?_, ?_⟩
  · unfold create_user_word_progress
    simp
  · unfold dueForUser create_user_word_progress
    simp [ht]

/-- Witness for C9 at a concrete pool and time. -/
theorem C9_witness :
    (0:ℚ) ≤ 1 ∧
    dueForUser 1 1 (create_user_word_progress [pReviewed] 1 7 0).1 = true :=
  ⟨by norm_num, (C9_create_progress_fresh [pReviewed] 1 7 0 1 (by norm_num)).2.2.2.2.2.2⟩

/-! ### Example users, words and states -/

/-- An active learner with no do-not-disturb window. -/
def userEx : User :=
  { id := 1, telegramId := 100, isActive := true, intervalMinutes := 30,
    doNotDisturbUntil := none, createdAt := 0, updatedAt := 0 }

/-- The same learner with a do-not-disturb window until hour 2. -/
def userDnd : User :=
  { userEx with doNotDisturbUntil := some 2 }

def wordEx : Word := { id := 1, wordEn := "cat", wordRu := "kot", createdAt := 0 }

/-- An open-form (free translation) task payload. -/
def transContentEx : TaskContent :=
  { taskType := some "translation_to_en", sentenceRu := some "u menya est kot",
    sentenceEn := none, correctAnswerEn := some "I have a cat", correctAnswerRu := none,
    question := none, options := [], correctIndex := none }

/-- A pending open-form task for learner 1, word 1. -/
def pendingTransTask : TaskHistory :=
  { id := 1, userId := 1, wordId := 1, taskType := "translation_to_en",
    taskContent := transContentEx, userAnswer := none, isCorrect := none,
    aiFeedback := none, createdAt := 0 }

/-- Learner 1 with one due word and one still-pending open-form task. -/
def stPending : DBState :=
  { users := [userEx], words := [wordEx], progresses := [pReviewed],
    tasks := [pendingTransTask] }

/-! ### C7 -/

/-- C7: while `now` is before the learner's do-not-disturb timestamp, a tick
is a silent no-op — state unchanged, no task created, no message of any kind;
once `now` has reached the timestamp, the tick proceeds through the eligible
body, and with a due item and a successful generation it stores a new task and
sends the question. -/
theorem C7_dnd_suppression (gen : GenResult) (now : ℚ) (st : DBState)
    (userId telegramId : Nat) (user : User)
    (hu : get_user_by_telegram_id st.users telegramId = some user)
    (untilT : ℚ) (hdnd : user.doNotDisturbUntil = some untilT) :
    (now < untilT → send_task_to_user gen now st userId telegramId = (st, [])) ∧
    (untilT ≤ now → user.isActive = true →
      send_task_to_user gen now st userId telegramId
        = send_task_eligible gen now st userId telegramId) ∧
    (untilT ≤ now → user.isActive = true →
      ∀ taskType content progress rest word,
        gen = GenResult.ok taskType content →
        get_words_for_review st.progresses userId now 1 = progress :: rest →
        st.words.find? (fun w => w.id == progress.wordId) = some word →
        send_task_to_user gen now st userId telegramId
          = ({ st with tasks := st.tasks ++
                [(create_task_history st.tasks userId word.id taskType content now).1] },
             send_task_message_effects content (freshTaskId st.tasks))) := by
  refine ⟨?_, ?_, ?_⟩
  · intro hlt
    unfold send_task_to_user
    rw [hu]; dsimp only
    rw [hdnd]
    cases hact : user.isActive <;> simp [hlt]
  · intro hge hact
    unfold send_task_to_user
    rw [hu]; dsimp only
    rw [hdnd, hact]
    simp [not_lt.mpr hge]
  · intro hge hact taskType content progress rest word hgen hrev hw
    subst hgen
    unfold send_task_to_user
    rw [hu]; dsimp only
    rw [hdnd, hact]
    simp only [Bool.not_true, Bool.false_eq_true, if_false, not_lt.mpr hge, ite_false]
    unfold send_task_eligible
    rw [hrev]; dsimp only
    rw [hw]
    simp [create_task_history]

/-- Witness for C7: with the window set until hour 2, a tick at hour 1 is a
silent no-op; a tick at hour 3 creates and sends a task. -/
theorem C7_witness :
    ((1:ℚ) < 2 ∧
      send_task_to_user (GenResult.ok "translation_to_en" transContentEx) 1
        { stPending with users := [userDnd] } 1 100 = ({ stPending with users := [userDnd] }, [])) ∧
    ((2:ℚ) ≤ 3 ∧
      send_task_to_user (GenResult.ok "translation_to_en" transContentEx) 3
        { stPending with users := [userDnd] } 1 100
      = ({ { stPending with users := [userDnd] } with
            tasks := { stPending with users := [userDnd] }.tasks ++
              [(create_task_history { stPending with users := [userDnd] }.tasks 1
                  wordEx.id "translation_to_en" transContentEx 3).1] },
         send_task_message_effects transContentEx
           (freshTaskId { stPending with users := [userDnd] }.tasks))) :=
  ⟨⟨by norm_num,
    (C7_dnd_suppression (GenResult.ok "translation_to_en" transContentEx) 1
        { stPending with users := [userDnd] } 1 100 userDnd (by decide) 2 (by decide)).1
      (by norm_num)⟩,
   ⟨by norm_num,
    (C7_dnd_suppression (GenResult.ok "translation_to_en" transContentEx) 3
        { stPending with users := [userDnd] } 1 100 userDnd (by decide) 2 (by decide)).2.2
      (by norm_num) (by decide) "translation_to_en" transContentEx pReviewed [] wordEx
      rfl (by decide) (by decide)⟩⟩

/-! ### C1 -/

/-- C1 counterexample: with a pending task already present, a tick with a
successful generation does not fail: it creates a second simultaneously
pending task (no ConflictError exists anywhere in the code), sending the new
question, and the old pending task is still there. -/
theorem C1_counterexample :
    (pendingTasksFor stPending 1).length = 1 ∧
    (send_task_to_user (GenResult.ok "translation_to_en" transContentEx) 5 stPending 1 100).2
      = [BotEffect.taskQuestionMsg 2] ∧
    (pendingTasksFor
      (send_task_to_user (GenResult.ok "translation_to_en" transContentEx) 5 stPending 1 100).1
      1).length = 2 ∧
    pendingTransTask ∈
      (send_task_to_user (GenResult.ok "translation_to_en" transContentEx) 5 stPending 1 100).1.tasks := by
  decide

/-- C1 amended: issuing a task while the learner already has a pending task
never fails and performs no pending-task check: the new task is appended and
becomes a second simultaneously-pending task, and the existing pending task is
left in place unchanged. -/
theorem C1_amended_no_conflict_check (now : ℚ) (st : DBState) (userId telegramId : Nat)
    (user : User) (hu : get_user_by_telegram_id st.users telegramId = some user)
    (hact : user.isActive = true) (hdnd : user.doNotDisturbUntil = none)
    (taskType : String) (content : TaskContent) (progress : Progress) (rest : List Progress)
    (hrev : get_words_for_review st.progresses userId now 1 = progress :: rest)
    (word : Word) (hw : st.words.find? (fun w => w.id == progress.wordId) = some word)
    (t0 : TaskHistory) (ht0 : t0 ∈ pendingTasksFor st userId) :
    ((send_task_to_user (GenResult.ok taskType content) now st userId telegramId).1.tasks
        = st.tasks ++ [(create_task_history st.tasks userId word.id taskType content now).1]) ∧
    t0 ∈ pendingTasksFor
      (send_task_to_user (GenResult.ok taskType content) now st userId telegramId).1 userId ∧
    (create_task_history st.tasks userId word.id taskType content now).1
      ∈ pendingTasksFor
          (send_task_to_user (GenResult.ok taskType content) now st userId telegramId).1 userId ∧
    (send_task_to_user (GenResult.ok taskType content) now st userId telegramId).2
        = send_task_message_effects content (freshTaskId st.tasks) := by
  have hstu : send_task_to_user (GenResult.ok taskType content) now st userId telegramId
      = ({ st with tasks := st.tasks ++
            [(create_task_history st.tasks userId word.id taskType content now).1] },
         send_task_message_effects content (freshTaskId st.tasks)) := by
    unfold send_task_to_user
    rw [hu]; dsimp only
    rw [hdnd, hact]
    simp only [Bool.not_true, Bool.false_eq_true, if_false]
    unfold send_task_eligible
    rw [hrev]; dsimp only
    rw [hw]
    simp [create_task_history]
  rw [hstu]
  refine ⟨rfl, ?_, ?_, rfl⟩
  · unfold pendingTasksFor at ht0 ⊢
    simp only [List.filter_append]
    exact List.mem_append_left _ ht0
  · unfold pendingTasksFor
    simp only [List.filter_append]
    refine List.mem_append_right _ ?_
    simp [create_task_history]

/-- Witness for C1's amended claim at the concrete pending state. -/
theorem C1_amended_witness :
    pendingTransTask ∈ pendingTasksFor
      (send_task_to_user (GenResult.ok "translation_to_en" transContentEx) 5 stPending 1 100).1 1 ∧
    (create_task_history stPending.tasks 1 wordEx.id "translation_to_en" transContentEx 5).1
      ∈ pendingTasksFor
          (send_task_to_user (GenResult.ok "translation_to_en" transContentEx) 5 stPending 1 100).1 1 :=
  ⟨(C1_amended_no_conflict_check 5 stPending 1 100 userEx (by decide) (by decide) (by decide)
      "translation_to_en" transContentEx pReviewed [] (by decide) wordEx (by decide)
      pendingTransTask (by decide)).2.1,
   (C1_amended_no_conflict_check 5 stPending 1 100 userEx (by decide) (by decide) (by decide)
      "translation_to_en" transContentEx pReviewed [] (by decide) wordEx (by decide)
      pendingTransTask (by decide)).2.2.1⟩

/-! ### C4 -/

/-- C4 counterexample: a successful grade of a text answer produces a
committed state in which the task outcome is already recorded while the
learner's progress rows are still untouched, and which is not the final
state — grading and the progress update are two separate commits, not one
atomic step. -/
theorem C4_counterexample :
    ∃ s ∈ (handle_text_answer (CheckResult.ok ⟨some true, some "good"⟩) 5 stPending 100
        "I have a cat").commits,
      (∃ t ∈ s.tasks, t.id = 1 ∧ t.isCorrect = some true) ∧
      s.progresses = stPending.progresses ∧
      s ≠ (handle_text_answer (CheckResult.ok ⟨some true, some "good"⟩) 5 stPending 100
        "I have a cat").state := by
  decide

/-- C4 amended: grading a text answer is sequential, not atomic — the handler
first commits the task outcome (progress rows unchanged at that commit), then
commits the progress update; on a successful grade both commits happen, in
that order. -/
theorem C4_amended_two_commits (v : CheckVerdict) (now : ℚ) (st : DBState)
    (telegramId : Nat) (user : User)
    (hu : get_user_by_telegram_id st.users telegramId = some user)
    (task : TaskHistory) (htask : get_last_pending_task st.tasks user.id = some task)
    (htype : task.taskContent.taskType = some "translation_to_en")
    (progress : Progress)
    (hp : get_user_word_progress st.progresses user.id task.wordId = some progress)
    (answer : String) :
    ((handle_text_answer (CheckResult.ok v) now st telegramId answer).commits
      = [{ st with
             tasks := update_task_history_answer st.tasks task.id answer
                        v.isCorrect v.feedback },
          (handle_text_answer (CheckResult.ok v) now st telegramId answer).state]) ∧
    ({ st with
         tasks := update_task_history_answer st.tasks task.id answer
                    v.isCorrect v.feedback } : DBState).progresses = st.progresses ∧
    (handle_text_answer (CheckResult.ok v) now st telegramId answer).state.progresses
      = update_word_progress st.progresses progress.id v.isCorrect now ∧
    (handle_text_answer (CheckResult.ok v) now st telegramId answer).state.tasks
      = update_task_history_answer st.tasks task.id answer v.isCorrect v.feedback := by
  unfold handle_text_answer get_or_create_user
  rw [hu]; dsimp only
  rw [htask]; dsimp only
  rw [htype]
  simp only [bne_self_eq_false, Bool.false_and, Bool.false_eq_true, if_false, ite_false]
  rw [hp]; dsimp only
  refine ⟨?_, ?_, ?_, ?_⟩ <;> trivial

/-- Witness for C4's amended claim at the concrete pending state. -/
theorem C4_amended_witness :
    (handle_text_answer (CheckResult.ok ⟨some true, some "good"⟩) 5 stPending 100
        "I have a cat").commits
      = [{ stPending with
             tasks := update_task_history_answer stPending.tasks 1 "I have a cat"
                        (some true) (some "good") },
          (handle_text_answer (CheckResult.ok ⟨some true, some "good"⟩) 5 stPending 100
            "I have a cat").state] :=
  (C4_amended_two_commits ⟨some true, some "good"⟩ 5 stPending 100 userEx (by decide)
    pendingTransTask (by decide) (by decide) pReviewed (by decide) "I have a cat").1

/-! ### C5 -/

/-- A reviewed mid-score progress row for learner 1, word 1. -/
def pMid : Progress :=
  { id := 1, userId := 1, wordId := 1, knowledgePercent := 50,
    lastReviewedAt := some 1, nextReviewAt := 2, correctAnswersCount := 4,
    totalAnswersCount := 6, createdAt := 0, updatedAt := 1 }

/-- Learner 1 with a mid-score progress row and a pending open-form task. -/
def stMid : DBState :=
  { users := [userEx], words := [wordEx], progresses := [pMid],
    tasks := [pendingTransTask] }

/-- C5 counterexample: when the classifier returns a parsed verdict that lacks
the correctness boolean (`is_correct` read as `None`), the handler leaves the
task outcome unset — but it does change the learner's progress: the row is
penalized as an incorrect answer (score 50 drops to 40, attempts increase). -/
theorem C5_counterexample :
    (∃ t ∈ (handle_text_answer (CheckResult.ok ⟨none, some "unclear"⟩) 5 stMid 100
        "a cat").state.tasks,
      t.id = 1 ∧ t.isCorrect = none ∧ t.userAnswer = some "a cat") ∧
    (∃ p ∈ (handle_text_answer (CheckResult.ok ⟨none, some "unclear"⟩) 5 stMid 100
        "a cat").state.progresses,
      p.id = 1 ∧ p.knowledgePercent = 40 ∧ p.totalAnswersCount = 7) ∧
    (handle_text_answer (CheckResult.ok ⟨none, some "unclear"⟩) 5 stMid 100
        "a cat").state.progresses ≠ stMid.progresses := by
  decide

/-- C5 amended: when the classifier call raises, the handler reports the
generic check-error message, commits nothing — the task outcome stays unset
and progress is untouched — and a subsequent grade call still finds the same
pending task. The claim's protection does not extend to a parsed verdict
missing the correctness boolean: there the incorrect-answer penalty is applied
to progress (see the counterexample) although the outcome stays unset. -/
theorem C5_amended_raise_leaves_pending (now : ℚ) (st : DBState) (telegramId : Nat)
    (user : User) (hu : get_user_by_telegram_id st.users telegramId = some user)
    (task : TaskHistory) (htask : get_last_pending_task st.tasks user.id = some task)
    (htype : task.taskContent.taskType = some "translation_to_en" ∨
             task.taskContent.taskType = some "translation_to_ru")
    (answer : String) :
    handle_text_answer CheckResult.raises now st telegramId answer
      = { state := st, effects := [BotEffect.checkErrorMsg], commits := [] } ∧
    get_last_pending_task
      (handle_text_answer CheckResult.raises now st telegramId answer).state.tasks user.id
      = some task := by
  have hmain : handle_text_answer CheckResult.raises now st telegramId answer
      = { state := st, effects := [BotEffect.checkErrorMsg], commits := [] } := by
    unfold handle_text_answer get_or_create_user
    rw [hu]; dsimp only
    rw [htask]; dsimp only
    rcases htype with h | h <;> rw [h] <;> simp
  exact ⟨hmain, by rw [hmain]; exact htask⟩

/-- Witness for C5's amended claim at the concrete pending state. -/
theorem C5_amended_witness :
    handle_text_answer CheckResult.raises 5 stMid 100 "a cat"
      = { state := stMid, effects := [BotEffect.checkErrorMsg], commits := [] } :=
  (C5_amended_raise_leaves_pending 5 stMid 100 userEx (by decide) pendingTransTask
    (by decide) (Or.inl (by decide)) "a cat").1

/-! ### C6 and C10 -/

/-- A closed-form (multiple choice) task payload with four options. -/
def mcContentEx : TaskContent :=
  { taskType := some "multiple_choice_en_to_ru", sentenceRu := none, sentenceEn := none,
    correctAnswerEn := none, correctAnswerRu := none,
    question := some "How does the word cat translate?",
    options := ["kot", "sobaka", "ptitsa", "ryba"], correctIndex := some 0 }

/-- A pending multiple-choice task. -/
def pendingMCTask : TaskHistory :=
  { id := 1, userId := 1, wordId := 1, taskType := "multiple_choice_en_to_ru",
    taskContent := mcContentEx, userAnswer := none, isCorrect := none,
    aiFeedback := none, createdAt := 0 }

/-- A multiple-choice task that has already been answered. -/
def answeredMCTask : TaskHistory :=
  { id := 2, userId := 1, wordId := 1, taskType := "multiple_choice_en_to_ru",
    taskContent := mcContentEx, userAnswer := some "kot", isCorrect := some true,
    aiFeedback := some "Correct! ✅", createdAt := 1 }

/-- A pending multiple-choice task whose payload lacks `correct_index`. -/
def mcNoIndexTask : TaskHistory :=
  { id := 3, userId := 1, wordId := 1, taskType := "multiple_choice_en_to_ru",
    taskContent := { mcContentEx with correctIndex := none }, userAnswer := none,
    isCorrect := none, aiFeedback := none, createdAt := 2 }

/-- Learner 1 with one pending, one answered and one malformed
multiple-choice task. -/
def stMC : DBState :=
  { users := [userEx], words := [wordEx], progresses := [pMid],
    tasks := [pendingMCTask, answeredMCTask, mcNoIndexTask] }

/-- C6: grading a task whose outcome is already set always ends in the
already-answered alert with the database unchanged (outcome, answer and
feedback intact); grading an unknown task id ends in the not-found alert with
no state change. -/
theorem C6_already_answered_and_not_found (now : ℚ) (st : DBState)
    (telegramId taskId : Nat) (selectedIndex : Int) (user : User)
    (hu : get_user_by_telegram_id st.users telegramId = some user) :
    (∀ task, st.tasks.find? (fun t => t.id == taskId) = some task →
      ∀ b, task.isCorrect = some b →
      handle_multiple_choice_answer now st telegramId taskId selectedIndex
        = { state := st, result := MCResult.alreadyAnsweredAlert, commits := [] }) ∧
    (st.tasks.find? (fun t => t.id == taskId) = none →
      handle_multiple_choice_answer now st telegramId taskId selectedIndex
        = { state := st, result := MCResult.notFoundAlert, commits := [] }) := by
  constructor
  · intro task hfind b hb
    unfold handle_multiple_choice_answer get_or_create_user
    rw [hu]; dsimp only
    rw [hfind]; dsimp only
    rw [hb]
    simp
  · intro hfind
    unfold handle_multiple_choice_answer get_or_create_user
    rw [hu]; dsimp only
    rw [hfind]
    rfl

/-- Witness for C6: the answered task id 2 yields the already-answered alert,
the unknown id 99 yields the not-found alert, both without state change. -/
theorem C6_witness :
    handle_multiple_choice_answer 5 stMC 100 2 0
      = { state := stMC, result := MCResult.alreadyAnsweredAlert, commits := [] } ∧
    handle_multiple_choice_answer 5 stMC 100 99 0
      = { state := stMC, result := MCResult.notFoundAlert, commits := [] } :=
  ⟨(C6_already_answered_and_not_found 5 stMC 100 2 0 userEx (by decide)).1
      answeredMCTask (by decide) true (by decide),
   (C6_already_answered_and_not_found 5 stMC 100 99 0 userEx (by decide)).2 (by decide)⟩

/-- C10: the multiple-choice grader indexes the stored options with the
submitted index and with the stored `correct_index` without any bounds or
presence check: submitting index 7 against a four-option pending task, or any
index against a pending task whose payload lacks `correct_index`, raises an
unhandled exception out of the handler — nothing is committed, no defined
error is produced, and the task stays pending. -/
theorem C10_mc_index_crash :
    ((handle_multiple_choice_answer 5 stMC 100 1 7).result = MCResult.crashed ∧
     (handle_multiple_choice_answer 5 stMC 100 1 7).state = stMC ∧
     (handle_multiple_choice_answer 5 stMC 100 1 7).commits = [] ∧
     (∃ t ∈ (handle_multiple_choice_answer 5 stMC 100 1 7).state.tasks,
        t.id = 1 ∧ t.isCorrect = none)) ∧
    ((handle_multiple_choice_answer 5 stMC 100 3 0).result = MCResult.crashed ∧
     (handle_multiple_choice_answer 5 stMC 100 3 0).state = stMC ∧
     (handle_multiple_choice_answer 5 stMC 100 3 0).commits = []) := by
  decide

end EnWordsBot
